import Mathlib

/-!
# Verification of the Urho3D render-pipeline excerpt

Shallow embedding of the scene visibility, lighting and batch/pipeline-state
resolution pipeline (`DrawableProcessor`, `LightProcessor`,
`SceneLightShadowSplit`, `ShadowScenePass`, `BatchStateCache`).

Floating-point quantities that are only compared, clamped or min/max-ed are
modelled as rationals (`ℚ`); the shadow-camera quantization arithmetic, which
uses `sqrtf`/`ceilf`, is modelled over the reals with exact `Real.sqrt` and
`Int.ceil`.
-/

namespace Urho3D

/-- Light type enumeration (`LIGHT_DIRECTIONAL`, `LIGHT_SPOT`, `LIGHT_POINT`). -/
inductive LightType where
  | directional
  | spot
  | point
deriving DecidableEq, Repr

/-- `MAX_CUBEMAP_FACES`: number of cube faces used for point-light shadows. -/
def MAX_CUBEMAP_FACES : Nat := 6

/-! ## LightProcessor::SetupShadowCameras (src/unnamed/part_007, lines 914..993)

For a directional light the source iterates over cascade entries
`cascade.splits_[i]` for `i < light->GetNumShadowSplits()`, maintaining
`nearSplit` (initially the camera near clip) and breaking out of the loop
as soon as `nearSplit > farClip` or `min(farClip, splits_[i]) <= nearSplit`;
each completed iteration increments `numSplits_`.  Spot lights set
`numSplits_ = 1`, point lights set `numSplits_ = MAX_CUBEMAP_FACES`. -/

/-- Inputs of the directional branch of `SetupShadowCameras`:
camera near/far clips, the cascade split table, and the requested number of
shadow splits (`Light::GetNumShadowSplits`). -/
structure DirShadowSetup where
  nearClip : ℚ
  farClip : ℚ
  cascadeSplits : List ℚ
  numShadowSplitsRequested : Nat
deriving Repr

/-- The directional-light split loop of `SetupShadowCameras`:
walks the cascade entries, carrying `nearSplit`, and stops at the first
entry with `nearSplit > farClip` or `min(farClip, entry) ≤ nearSplit`.
Returns the number of completed iterations (`numSplits_`). -/
def dirSplitLoop (farClip : ℚ) : List ℚ → ℚ → Nat
  | [], _ => 0
  | s :: rest, nearSplit =>
    if nearSplit > farClip then 0
    else
      let farSplit := min farClip s
      if farSplit ≤ nearSplit then 0
      else dirSplitLoop farClip rest farSplit + 1

/-- `numSplits_` right after `LightProcessor::SetupShadowCameras`, per light
type.  The directional branch iterates over the first
`numShadowSplitsRequested` cascade entries. -/
def setupShadowCamerasNumSplits (lt : LightType) (p : DirShadowSetup) : Nat :=
  match lt with
  | .directional =>
      dirSplitLoop p.farClip (p.cascadeSplits.take p.numShadowSplitsRequested) p.nearClip
  | .spot => 1
  | .point => MAX_CUBEMAP_FACES

/-- Restatement of the claim's counting rule for directional lights: the
number of cascade-table entries, taken in order with chained near bounds
(the near bound of the first entry is the camera near clip, the near bound
of each later entry is the previous far bound clamped to the far clip),
whose near bound does not exceed the camera far clip and whose far bound
(clamped to the far clip) exceeds the near bound. -/
def claimDirActiveSplits (farClip : ℚ) : List ℚ → ℚ → Nat
  | [], _ => 0
  | s :: rest, near =>
    if near ≤ farClip ∧ near < min farClip s then
      claimDirActiveSplits farClip rest (min farClip s) + 1
    else 0

/-- Per-type maximum number of active shadow splits:
1 for spot lights, `MAX_CUBEMAP_FACES` for point lights and the requested
cascade count for directional lights. -/
def maxSplitsForType (lt : LightType) (p : DirShadowSetup) : Nat :=
  match lt with
  | .directional => p.numShadowSplitsRequested
  | .spot => 1
  | .point => MAX_CUBEMAP_FACES

theorem dirSplitLoop_eq_claimCount (farClip : ℚ) :
    ∀ (l : List ℚ) (near : ℚ), dirSplitLoop farClip l near = claimDirActiveSplits farClip l near := by
  intro l
  induction l with
  | nil => intro near; rfl
  | cons s rest ih =>
    intro near
    simp only [dirSplitLoop, claimDirActiveSplits]
    by_cases h1 : near > farClip
    · rw [if_pos h1, if_neg]
      rintro ⟨h2, -⟩
      exact absurd h2 (not_le.mpr h1)
    · rw [if_neg h1]
      by_cases h2 : min farClip s ≤ near
      · rw [if_pos h2, if_neg]
        rintro ⟨-, h3⟩
        exact absurd h3 (not_lt.mpr h2)
      · rw [if_neg h2, if_pos ⟨not_lt.mp h1, not_le.mp h2⟩, ih]

theorem dirSplitLoop_le_length (farClip : ℚ) :
    ∀ (l : List ℚ) (near : ℚ), dirSplitLoop farClip l near ≤ l.length := by
  intro l
  induction l with
  | nil => intro near; exact Nat.le_refl 0
  | cons s rest ih =>
    intro near
    simp only [dirSplitLoop, List.length_cons]
    by_cases h1 : near > farClip
    · rw [if_pos h1]; exact Nat.zero_le _
    · rw [if_neg h1]
      by_cases h2 : min farClip s ≤ near
      · rw [if_pos h2]; exact Nat.zero_le _
      · rw [if_neg h2]
        exact Nat.succ_le_succ (ih _)

/-- C1: After `SetupShadowCameras`, the number of active shadow splits is
exactly 1 for a spot light, exactly 6 for a point light, and for a
directional light equals the number of cascade-table entries whose near
bound does not exceed the camera far clip and whose far bound (clamped to
the far clip) exceeds the near bound, never exceeding the requested split
count; no light type exceeds its per-type maximum. -/
theorem setupShadowCameras_activeSplits (p : DirShadowSetup) :
    setupShadowCamerasNumSplits .spot p = 1
    ∧ setupShadowCamerasNumSplits .point p = 6
    ∧ setupShadowCamerasNumSplits .directional p
        = claimDirActiveSplits p.farClip (p.cascadeSplits.take p.numShadowSplitsRequested) p.nearClip
    ∧ setupShadowCamerasNumSplits .directional p ≤ p.numShadowSplitsRequested
    ∧ ∀ lt, setupShadowCamerasNumSplits lt p ≤ maxSplitsForType lt p := by
  refine ⟨rfl, rfl, ?_, ?_, ?_⟩
  · exact dirSplitLoop_eq_claimCount _ _ _
  · calc setupShadowCamerasNumSplits .directional p
        ≤ (p.cascadeSplits.take p.numShadowSplitsRequested).length :=
          dirSplitLoop_le_length _ _ _
      _ ≤ p.numShadowSplitsRequested := by
          rw [List.length_take]; exact min_le_left _ _
  · intro lt
    cases lt with
    | directional =>
        calc setupShadowCamerasNumSplits .directional p
            ≤ (p.cascadeSplits.take p.numShadowSplitsRequested).length :=
              dirSplitLoop_le_length _ _ _
          _ ≤ p.numShadowSplitsRequested := by
              rw [List.length_take]; exact min_le_left _ _
    | spot => exact Nat.le_refl 1
    | point => exact Nat.le_refl 6

/-! ## LightProcessor shadow-map finalization and allocation
(src/unnamed/part_007, lines 645..681; HasShadow from
src/Source/Urho3D/RenderPipeline/LightProcessor.h, line 131) -/

/-- `ShadowMapRegion` / `ShadowMap`: a transient shadow-map allocation.
`texture` is `none` exactly when allocation failed (null texture). -/
structure ShadowMapRegion where
  texture : Option Nat
  region : Nat × Nat × Nat × Nat
deriving DecidableEq, Repr

/-- State of a `LightProcessor` relevant to shadow-map finalization and
allocation.  Shadow-caster batches are carried per split (`splits_[i]`,
modelled by index); batches themselves are identified by numbers. -/
structure LightProcessorState where
  lightType : LightType
  hasShadow : Bool
  numSplits : Nat
  /-- `splits_[i].shadowCasters_` for each split slot. -/
  splitShadowCasters : List (List Nat)
  /-- `splits_[i].shadowCasterBatches_` for each split slot. -/
  splitShadowCasterBatches : List (List Nat)
  shadowMap : Option ShadowMapRegion
  shadowMapSplitSize : Option Nat
  shadowMapSize : Option (Nat × Nat)
  /-- Number of splits whose shadow camera was finalized by `SetShadowMap`. -/
  splitsFinalized : Nat
deriving DecidableEq, Repr

/-- `LightProcessor::GetSplitsGridSize`: grid of splits in the shadow map. -/
def GetSplitsGridSize (numSplits : Nat) : Nat × Nat :=
  if numSplits = 1 then (1, 1)
  else if numSplits = 2 then (2, 1)
  else if numSplits < 6 then (2, 2)
  else (3, 2)

/-- `LightProcessor::FinalizeShadowMap`: skip if the light has no shadow;
if no active split (`splits_[0..numSplits_)`) has any shadow caster, drop
the shadow (`hasShadow_ = false`) and return before any size computation;
otherwise compute the split size (512, or 256 for point lights) and the
shadow-map size from the splits grid. -/
def finalizeShadowMap (s : LightProcessorState) : LightProcessorState :=
  if !s.hasShadow then s
  else if (s.splitShadowCasters.take s.numSplits).all List.isEmpty then
    { s with hasShadow := false }
  else
    let splitSize := if s.lightType ≠ .point then 512 else 256
    let grid := GetSplitsGridSize s.numSplits
    { s with
      shadowMapSplitSize := some splitSize
      shadowMapSize := some (splitSize * grid.1, splitSize * grid.2) }

/-- `LightProcessor::SetShadowMap`: on a null-texture region, set
`numSplits_ = 0` and return; otherwise store the shadow map and finalize
the shadow camera of every active split. -/
def setShadowMap (s : LightProcessorState) (sm : ShadowMapRegion) : LightProcessorState :=
  if sm.texture = none then { s with numSplits := 0 }
  else { s with shadowMap := some sm, splitsFinalized := s.numSplits }

/-- `LightProcessor::HasShadow` (LightProcessor.h line 131):
`numActiveSplits_ != 0`. -/
def HasShadow (s : LightProcessorState) : Bool :=
  s.numSplits ≠ 0

/-- Shadow batches emitted for a light: the shadow-caster batches of its
active splits only (`GetSplits()` spans exactly `numActiveSplits_` splits). -/
def emittedShadowBatches (s : LightProcessorState) : List Nat :=
  ((List.range s.numSplits).map (fun i => s.splitShadowCasterBatches.getD i [])).flatten

/-- C2: if transient shadow-map allocation fails (the region has a null
texture), `SetShadowMap` sets the active split count to 0; hence
`HasShadow()` returns false and no shadow batches are emitted for that
light, and the operation returns normally instead of aborting. -/
theorem setShadowMap_allocationFailure (s : LightProcessorState) (sm : ShadowMapRegion)
    (hfail : sm.texture = none) :
    (setShadowMap s sm).numSplits = 0
    ∧ HasShadow (setShadowMap s sm) = false
    ∧ emittedShadowBatches (setShadowMap s sm) = [] := by
  have h : setShadowMap s sm = { s with numSplits := 0 } := by
    unfold setShadowMap
    rw [if_pos hfail]
  refine ⟨by rw [h], by rw [h]; rfl, by rw [h]; rfl⟩

/-- Witness for C2 at a concrete state and a failed allocation. -/
theorem setShadowMap_allocationFailure_witness :
    (⟨none, (0, 0, 4, 4)⟩ : ShadowMapRegion).texture = none
    ∧ ((setShadowMap
          ⟨.point, true, 6, [[1], [], [], [], [], []], [[7], [], [], [], [], []],
            none, none, none, 0⟩
          ⟨none, (0, 0, 4, 4)⟩).numSplits = 0
        ∧ HasShadow (setShadowMap
            ⟨.point, true, 6, [[1], [], [], [], [], []], [[7], [], [], [], [], []],
              none, none, none, 0⟩
            ⟨none, (0, 0, 4, 4)⟩) = false
        ∧ emittedShadowBatches (setShadowMap
            ⟨.point, true, 6, [[1], [], [], [], [], []], [[7], [], [], [], [], []],
              none, none, none, 0⟩
            ⟨none, (0, 0, 4, 4)⟩) = []) :=
  ⟨rfl, setShadowMap_allocationFailure _ _ rfl⟩

/-- C10: for a light with shadow requested, if no active split holds any
shadow caster, `FinalizeShadowMap` disables the shadow and changes nothing
else: in particular no shadow-map size is computed, so the light is
treated as unshadowed although allocation was never attempted. -/
theorem finalizeShadowMap_noCasters (s : LightProcessorState)
    (hshadow : s.hasShadow = true)
    (hempty : (s.splitShadowCasters.take s.numSplits).all List.isEmpty = true) :
    finalizeShadowMap s = { s with hasShadow := false } := by
  unfold finalizeShadowMap
  rw [hshadow]
  simp only [Bool.not_true, Bool.false_eq_true, if_false, hempty, if_true]

/-- Witness for C10 at a concrete state: shadow requested, two active
splits, both without shadow casters; the shadow is dropped and the
shadow-map size stays uncomputed. -/
theorem finalizeShadowMap_noCasters_witness :
    (⟨.directional, true, 2, [[], [], [3]], [[], [], []], none, none, none, 0⟩
        : LightProcessorState).hasShadow = true
    ∧ finalizeShadowMap
        ⟨.directional, true, 2, [[], [], [3]], [[], [], []], none, none, none, 0⟩
      = ⟨.directional, false, 2, [[], [], [3]], [[], [], []], none, none, none, 0⟩ :=
  ⟨rfl, finalizeShadowMap_noCasters _ rfl rfl⟩

/-! ## DrawableProcessor (src/Source/Urho3D/RenderPipeline/DrawableProcessor.cpp)

`ProcessVisibleDrawable` (lines 249..361), `ProcessForwardLighting`
(lines 378..405) and `DrawableProcessorPass::AddBatch` (lines 127..139). -/

/-- `M_LARGE_VALUE` from MathDefs. -/
def M_LARGE_VALUE : ℚ := 100000000

/-- `M_LARGE_EPSILON` from MathDefs (0.00005). -/
def M_LARGE_EPSILON : ℚ := 1 / 20000

/-- `GeometryRenderFlag` bits. -/
def GeometryRenderFlagVisible : Nat := 1

/-- `GeometryRenderFlag::Lit`. -/
def GeometryRenderFlagLit : Nat := 2

/-- `GeometryRenderFlag::ForwardLit`. -/
def GeometryRenderFlagForwardLit : Nat := 4

/-- Answers of `Technique::GetPass` for the three pass indices of one
`DrawableProcessorPass` (`unlitBasePassIndex_`, `litBasePassIndex_`,
`lightPassIndex_`): whether the technique has each pass. -/
structure PassEntry where
  unlitBasePass : Bool
  litBasePass : Bool
  lightPass : Bool
deriving DecidableEq, Repr

/-- A `DrawableProcessorPass` as seen by `ProcessVisibleDrawable`. -/
structure ProcPass where
  needAmbient : Bool
deriving DecidableEq, Repr

/-- `DrawableProcessorPass::AddResult`. -/
structure AddResult where
  added : Bool
  litAdded : Bool
deriving DecidableEq, Repr

/-- `DrawableProcessorPass::AddBatch`: if the technique has no unlit base
pass, nothing is added; otherwise a geometry batch is recorded and the
result reports `litAdded` exactly when the technique has a light pass.
The second component tells whether a batch was pushed. -/
def addBatch (e : PassEntry) : AddResult × Bool :=
  if !e.unlitBasePass then (⟨false, false⟩, false)
  else (⟨true, e.lightPass⟩, true)

/-- Per-drawable light accumulator (`LightAccumulator`, external header):
spherical-harmonics ambient term and accumulated light penalties. -/
structure LightAccum where
  sh : ℚ
  penalties : List ℚ
deriving DecidableEq, Repr

/-- The data of one drawable consumed by `ProcessVisibleDrawable`:
index, drawable flags, draw distance and camera distance, the view-space
Z range of its bounding box (`none` when `CalculateBoundingBoxZRange`
yields an invalid range), per-source-batch technique lookup results
(`none` when `FindTechnique` fails), ambient inputs, and — for lights —
the effective color/mask tests and the component ID. -/
structure DrawableRec where
  drawableIndex : Nat
  isGeometry : Bool
  isLight : Bool
  drawDistance : ℚ
  distance : ℚ
  zRange : Option (ℚ × ℚ)
  sourceBatchTechniques : List (Option (List PassEntry))
  giSH : Option ℚ
  zoneAmbient : ℚ
  lightColorIsBlack : Bool
  lightMaskZero : Bool
  lightId : Nat

/-- The pieces of `DrawableProcessor` state touched by
`ProcessVisibleDrawable` (single-worker model: the per-thread buffers are
collapsed into one). -/
structure DPState where
  passes : List ProcPass
  visibleGeometries : List Nat
  visibleLightIds : List Nat
  geometryFlags : Nat → Nat
  geometryZRanges : Nat → Option (ℚ × ℚ)
  geometryLighting : Nat → LightAccum
  sceneZRangeTemp : Option (ℚ × ℚ)
  geometryBatches : List (Nat × Nat × Nat)
  queuedGeometryUpdates : List Nat
  isDrawableUpdated : Nat → Bool

/-- Union of float ranges (`FloatRange::operator |=`): accumulate a range. -/
def rangeUnion (a : Option (ℚ × ℚ)) (b : ℚ × ℚ) : Option (ℚ × ℚ) :=
  match a with
  | none => some b
  | some (lo, hi) => some (min lo b.1, max hi b.2)

/-- The scene-pass registration loop of `ProcessVisibleDrawable`: run
`AddBatch` for one source batch against every processor pass, collecting
pushed batches and folding the `litAdded` / ambient-need flags. -/
def registerSourceBatch (passes : List ProcPass) (entries : List PassEntry)
    (drawableIndex sourceBatchIndex : Nat) :
    List (Nat × Nat × Nat) × Bool × Bool :=
  (List.zip (List.zip (List.range passes.length) passes) entries).foldl
    (fun acc pe =>
      let passIndex := pe.1.1
      let pass := pe.1.2
      let r := addBatch pe.2
      ( (if r.2 then acc.1 ++ [(passIndex, drawableIndex, sourceBatchIndex)] else acc.1)
      , acc.2.1 || r.1.litAdded
      , acc.2.2 || (r.1.litAdded || (r.1.added && pass.needAmbient)) ))
    ([], false, false)

/-- All source batches of a drawable: fold `registerSourceBatch` over the
technique lookup results, skipping batches whose technique is missing. -/
def registerAllSourceBatches (passes : List ProcPass)
    (techniques : List (Option (List PassEntry))) (drawableIndex : Nat) :
    List (Nat × Nat × Nat) × Bool × Bool :=
  (List.zip (List.range techniques.length) techniques).foldl
    (fun acc it =>
      match it.2 with
      | none => acc
      | some entries =>
        let r := registerSourceBatch passes entries drawableIndex it.1
        (acc.1 ++ r.1, acc.2.1 || r.2.1, acc.2.2 || r.2.2))
    ([], false, false)

/-- `DrawableProcessor::ProcessVisibleDrawable`: mark the drawable
updated; skip it entirely when it has a positive draw distance and lies
farther than that; otherwise classify it as geometry (Z range, zone
ambient, scene-pass batches, render flags, geometry-update queue) or as a
light (queued into the visible-light buffer unless its effective color is
black or its effective light mask is zero). -/
def processVisibleDrawable (s : DPState) (d : DrawableRec) : DPState :=
  let s0 := { s with
    isDrawableUpdated := Function.update s.isDrawableUpdated d.drawableIndex true }
  if d.drawDistance > 0 ∧ d.distance > d.drawDistance then s0
  else if d.isGeometry then
    let zStep : (Nat → Option (ℚ × ℚ)) × Option (ℚ × ℚ) :=
      match d.zRange with
      | none =>
        (Function.update s0.geometryZRanges d.drawableIndex
          (some (M_LARGE_VALUE, M_LARGE_VALUE)), s0.sceneZRangeTemp)
      | some zr =>
        (Function.update s0.geometryZRanges d.drawableIndex (some zr),
          rangeUnion s0.sceneZRangeTemp zr)
    let reg := registerAllSourceBatches s0.passes d.sourceBatchTechniques d.drawableIndex
    let isForwardLit := reg.2.1
    let needAmbient := reg.2.2
    let lighting :=
      if needAmbient then
        let old := s0.geometryLighting d.drawableIndex
        let acc : LightAccum :=
          { sh := (match d.giSH with | some v => v | none => 0) + d.zoneAmbient
            penalties := if isForwardLit then [] else old.penalties }
        Function.update s0.geometryLighting d.drawableIndex acc
      else s0.geometryLighting
    let flags :=
      GeometryRenderFlagVisible
        ||| (if needAmbient then GeometryRenderFlagLit else 0)
        ||| (if isForwardLit then GeometryRenderFlagForwardLit else 0)
    { s0 with
      geometryZRanges := zStep.1
      sceneZRangeTemp := zStep.2
      geometryBatches := s0.geometryBatches ++ reg.1
      geometryLighting := lighting
      visibleGeometries := s0.visibleGeometries ++ [d.drawableIndex]
      geometryFlags := Function.update s0.geometryFlags d.drawableIndex flags
      queuedGeometryUpdates := s0.queuedGeometryUpdates ++ [d.drawableIndex] }
  else if d.isLight then
    if ¬d.lightColorIsBlack ∧ ¬d.lightMaskZero then
      { s0 with visibleLightIds := s0.visibleLightIds ++ [d.lightId] }
    else s0
  else s0

/-- C4: a visible drawable with a positive draw distance that lies
farther from the camera than that distance is excluded by
`ProcessVisibleDrawable`: the visible-geometry and visible-light lists,
the geometry render flags and the collected batches are all unchanged (so
its own flags stay zero and no batch of it is collected). -/
theorem processVisibleDrawable_excludesBeyondDrawDistance
    (s : DPState) (d : DrawableRec)
    (hpos : d.drawDistance > 0) (hfar : d.distance > d.drawDistance) :
    (processVisibleDrawable s d).visibleGeometries = s.visibleGeometries
    ∧ (processVisibleDrawable s d).visibleLightIds = s.visibleLightIds
    ∧ (processVisibleDrawable s d).geometryFlags = s.geometryFlags
    ∧ (processVisibleDrawable s d).geometryBatches = s.geometryBatches := by
  have h : processVisibleDrawable s d
      = { s with isDrawableUpdated := Function.update s.isDrawableUpdated d.drawableIndex true } := by
    unfold processVisibleDrawable
    rw [if_pos ⟨hpos, hfar⟩]
  exact ⟨by rw [h], by rw [h], by rw [h], by rw [h]⟩

/-- Initial `DrawableProcessor` state used by witnesses: empty buffers,
all flags zero (as after `OnUpdateBegin`). -/
def emptyDPState : DPState :=
  { passes := [⟨true⟩]
    visibleGeometries := []
    visibleLightIds := []
    geometryFlags := fun _ => 0
    geometryZRanges := fun _ => none
    geometryLighting := fun _ => ⟨0, []⟩
    sceneZRangeTemp := none
    geometryBatches := []
    queuedGeometryUpdates := []
    isDrawableUpdated := fun _ => false }

/-- Witness for C4: a geometry drawable with draw distance 10 at distance
25 is excluded. -/
theorem processVisibleDrawable_excludesBeyondDrawDistance_witness :
    ((10 : ℚ) > 0 ∧ (25 : ℚ) > 10)
    ∧ ((processVisibleDrawable emptyDPState
          ⟨3, true, false, 10, 25, some (1, 2), [some [⟨true, false, true⟩]],
            none, 0, false, false, 0⟩).visibleGeometries
        = emptyDPState.visibleGeometries
      ∧ (processVisibleDrawable emptyDPState
          ⟨3, true, false, 10, 25, some (1, 2), [some [⟨true, false, true⟩]],
            none, 0, false, false, 0⟩).visibleLightIds
        = emptyDPState.visibleLightIds
      ∧ (processVisibleDrawable emptyDPState
          ⟨3, true, false, 10, 25, some (1, 2), [some [⟨true, false, true⟩]],
            none, 0, false, false, 0⟩).geometryFlags
        = emptyDPState.geometryFlags
      ∧ (processVisibleDrawable emptyDPState
          ⟨3, true, false, 10, 25, some (1, 2), [some [⟨true, false, true⟩]],
            none, 0, false, false, 0⟩).geometryBatches
        = emptyDPState.geometryBatches) :=
  ⟨⟨by norm_num, by norm_num⟩,
    processVisibleDrawable_excludesBeyondDrawDistance _ _ (by norm_num) (by norm_num)⟩

/-- Light importance classes (`LI_IMPORTANT`, `LI_AUTO`, `LI_NOT_IMPORTANT`). -/
inductive LightImportance where
  | important
  | auto
  | notImportant
deriving DecidableEq, Repr

/-- `GetDrawableLightPenalty` (DrawableProcessor.cpp, lines 53..67):
penalty for a drawable given the distance-scaled intensity penalty,
the light's importance class and its type. -/
def GetDrawableLightPenalty (intensityPenalty : ℚ) (importance : LightImportance)
    (t : LightType) : ℚ :=
  match importance with
  | .important => if t = .directional then -2 else -1
  | .auto => if intensityPenalty ≤ 1 then intensityPenalty else 2 - 1 / intensityPenalty
  | .notImportant => if intensityPenalty ≤ 1 then 3 + intensityPenalty else 5 - 1 / intensityPenalty

/-- A visible light as consumed by `ProcessForwardLighting`. -/
structure LightRec where
  id : Nat
  lightType : LightType
  importance : LightImportance
  intensityDivisor : ℚ
deriving DecidableEq, Repr

/-- `DrawableProcessor` state touched by `ProcessForwardLighting`. -/
structure FwdLightState where
  visibleLights : List LightRec
  geometryLighting : Nat → LightAccum
  errorLog : List String

/-- `DrawableProcessor::ProcessForwardLighting`: with an out-of-range
light index, log an error and return; otherwise accumulate, for every lit
geometry, the penalty of the chosen light into that geometry's light
accumulator.  `Light::GetDistanceTo` and `LightAccumulator::AccumulateLight`
live outside the excerpt and are passed in as functions. -/
def processForwardLighting
    (distanceTo : LightRec → Nat → ℚ)
    (accumulate : LightAccum → ℚ → LightAccum)
    (s : FwdLightState) (lightIndex : Nat) (litGeometries : List Nat) : FwdLightState :=
  if lightIndex ≥ s.visibleLights.length then
    { s with errorLog := s.errorLog ++ ["Invalid light index"] }
  else
    let light := s.visibleLights.getD lightIndex ⟨0, .directional, .auto, 1⟩
    let lightIntensityPenalty := 1 / light.intensityDivisor
    let lighting := litGeometries.foldl
      (fun acc g =>
        let distance := max (distanceTo light g) M_LARGE_EPSILON
        let penalty :=
          GetDrawableLightPenalty (distance * lightIntensityPenalty) light.importance light.lightType
        Function.update acc g (accumulate (acc g) penalty))
      s.geometryLighting
    { s with geometryLighting := lighting }

/-- C8: called with a light index at or beyond the number of visible
lights, `ProcessForwardLighting` logs an error and is otherwise a no-op:
no per-drawable light accumulator changes (for any accumulation callback)
and the call returns normally. -/
theorem processForwardLighting_invalidIndex
    (distanceTo : LightRec → Nat → ℚ) (accumulate : LightAccum → ℚ → LightAccum)
    (s : FwdLightState) (lightIndex : Nat) (litGeometries : List Nat)
    (hge : lightIndex ≥ s.visibleLights.length) :
    (processForwardLighting distanceTo accumulate s lightIndex litGeometries).geometryLighting
        = s.geometryLighting
    ∧ (processForwardLighting distanceTo accumulate s lightIndex litGeometries).visibleLights
        = s.visibleLights
    ∧ (processForwardLighting distanceTo accumulate s lightIndex litGeometries).errorLog
        = s.errorLog ++ ["Invalid light index"] := by
  have h : processForwardLighting distanceTo accumulate s lightIndex litGeometries
      = { s with errorLog := s.errorLog ++ ["Invalid light index"] } := by
    unfold processForwardLighting
    rw [if_pos hge]
  exact ⟨by rw [h], by rw [h], by rw [h]⟩

/-- Witness for C8: one visible light, queried with index 1. -/
theorem processForwardLighting_invalidIndex_witness :
    (1 : Nat) ≥ [(⟨5, .point, .auto, 1⟩ : LightRec)].length
    ∧ ((processForwardLighting (fun _ _ => 2) (fun a p => ⟨a.sh, a.penalties ++ [p]⟩)
          ⟨[⟨5, .point, .auto, 1⟩], fun _ => ⟨0, []⟩, []⟩ 1 [0, 1]).geometryLighting
        = (⟨[⟨5, .point, .auto, 1⟩], fun _ => ⟨0, []⟩, []⟩ : FwdLightState).geometryLighting
      ∧ (processForwardLighting (fun _ _ => 2) (fun a p => ⟨a.sh, a.penalties ++ [p]⟩)
          ⟨[⟨5, .point, .auto, 1⟩], fun _ => ⟨0, []⟩, []⟩ 1 [0, 1]).visibleLights
        = (⟨[⟨5, .point, .auto, 1⟩], fun _ => ⟨0, []⟩, []⟩ : FwdLightState).visibleLights
      ∧ (processForwardLighting (fun _ _ => 2) (fun a p => ⟨a.sh, a.penalties ++ [p]⟩)
          ⟨[⟨5, .point, .auto, 1⟩], fun _ => ⟨0, []⟩, []⟩ 1 [0, 1]).errorLog
        = (⟨[⟨5, .point, .auto, 1⟩], fun _ => ⟨0, []⟩, []⟩ : FwdLightState).errorLog
            ++ ["Invalid light index"]) :=
  ⟨by decide, processForwardLighting_invalidIndex _ _ _ _ _ (by decide)⟩

/-! ## DrawableProcessor::ProcessVisibleDrawables light-list merge
(DrawableProcessor.cpp, lines 202..223)

After the parallel fan-out, `visibleLightsTemp_` (per-thread buffers) is
copied into `visibleLights_` and sorted with
`compareID = lhs->GetID() < rhs->GetID()` by `ea::sort` (an unspecified
comparison sort; the determinism theorem below shows that on ID-distinct
inputs every correct sort produces the same list).  `lightProcessors_` is
then rebuilt by mapping the processor cache over the sorted list. -/

/-- A visible light: stable component ID plus the rest of its identity. -/
structure VisibleLight where
  id : Nat
  payload : Nat
deriving DecidableEq, Repr

/-- Comparison by component ID, reflexive form. -/
def lightLE (a b : VisibleLight) : Prop := a.id ≤ b.id

/-- Comparison by component ID, strict form (the `compareID` comparator). -/
def lightLT (a b : VisibleLight) : Prop := a.id < b.id

instance : DecidableRel lightLE := fun a b => Nat.decLe a.id b.id

instance : IsTotal VisibleLight lightLE := ⟨fun a b => Nat.le_total a.id b.id⟩

instance : IsTrans VisibleLight lightLE := ⟨fun _ _ _ h1 h2 => Nat.le_trans h1 h2⟩

instance : IsAntisymm VisibleLight lightLT :=
  ⟨fun _ _ h1 h2 => absurd h2 (Nat.lt_asymm h1)⟩

/-- Merge the per-thread light buffers and sort by component ID
(the tail of `ProcessVisibleDrawables`). -/
def mergeVisibleLights (buffers : List (List VisibleLight)) : List VisibleLight :=
  List.insertionSort lightLE buffers.flatten

/-- Rebuild the light-processor list from the sorted light list
(`lightProcessorCache_->GetLightProcessor` is abstracted as a function). -/
def deriveLightProcessors (getLightProcessor : VisibleLight → Nat)
    (lights : List VisibleLight) : List Nat :=
  lights.map getLightProcessor

theorem mergeVisibleLights_perm (buffers : List (List VisibleLight)) :
    (mergeVisibleLights buffers).Perm buffers.flatten :=
  List.perm_insertionSort lightLE buffers.flatten

theorem mergeVisibleLights_sorted (buffers : List (List VisibleLight)) :
    (mergeVisibleLights buffers).Sorted lightLE :=
  List.sorted_insertionSort lightLE buffers.flatten

theorem mergeVisibleLights_sorted_strict (buffers : List (List VisibleLight))
    (hids : buffers.flatten.Pairwise fun a b => a.id ≠ b.id) :
    (mergeVisibleLights buffers).Sorted lightLT := by
  have hne : (mergeVisibleLights buffers).Pairwise fun a b => a.id ≠ b.id :=
    ((mergeVisibleLights_perm buffers).pairwise_iff
      (fun h => Ne.symm h)).mpr hids
  exact ((mergeVisibleLights_sorted buffers).and hne).imp
    (fun h => lt_of_le_of_ne h.1 h.2)

/-- C9: after the merge, the visible-light list is sorted by ascending
component ID and keeps each light exactly as often as it occurred in the
union of the per-thread buffers (so a light pushed once appears once);
and any two per-thread distributions with the same combined multiset of
ID-distinct lights produce the same visible-light list and the same
derived light-processor list. -/
theorem processVisibleDrawables_lightList_deterministic
    (bs1 bs2 : List (List VisibleLight))
    (hperm : bs1.flatten.Perm bs2.flatten)
    (hids : bs1.flatten.Pairwise fun a b => a.id ≠ b.id) :
    (mergeVisibleLights bs1).Sorted lightLE
    ∧ (∀ l, (mergeVisibleLights bs1).count l = bs1.flatten.count l)
    ∧ (∀ l ∈ mergeVisibleLights bs1, (mergeVisibleLights bs1).count l = 1)
    ∧ mergeVisibleLights bs1 = mergeVisibleLights bs2
    ∧ ∀ getLightProcessor,
        deriveLightProcessors getLightProcessor (mergeVisibleLights bs1)
          = deriveLightProcessors getLightProcessor (mergeVisibleLights bs2) := by
  have hids2 : bs2.flatten.Pairwise fun a b => a.id ≠ b.id :=
    (hperm.pairwise_iff (fun h => Ne.symm h)).mp hids
  have heq : mergeVisibleLights bs1 = mergeVisibleLights bs2 := by
    refine List.eq_of_perm_of_sorted
      (((mergeVisibleLights_perm bs1).trans hperm).trans (mergeVisibleLights_perm bs2).symm)
      (mergeVisibleLights_sorted_strict bs1 hids)
      (mergeVisibleLights_sorted_strict bs2 hids2)
  refine ⟨mergeVisibleLights_sorted bs1, ?_, ?_, heq, fun f => by rw [heq]⟩
  · intro l
    exact (mergeVisibleLights_perm bs1).count_eq l
  · intro l hl
    have hnd : (mergeVisibleLights bs1).Nodup :=
      ((mergeVisibleLights_perm bs1).nodup_iff).mpr
        (List.Pairwise.imp (fun h => by
          intro hab
          exact h (congrArg VisibleLight.id hab)) hids)
    exact List.count_eq_one_of_mem hnd hl

/-- Witness for C9: the same three lights split across the per-thread
buffers in two different ways yield the same sorted list. -/
theorem processVisibleDrawables_lightList_deterministic_witness :
    (([[⟨7, 0⟩], [⟨2, 1⟩, ⟨5, 2⟩]] : List (List VisibleLight)).flatten).Perm
        ([[⟨5, 2⟩, ⟨7, 0⟩], [], [⟨2, 1⟩]] : List (List VisibleLight)).flatten
    ∧ mergeVisibleLights [[⟨7, 0⟩], [⟨2, 1⟩, ⟨5, 2⟩]]
        = mergeVisibleLights [[⟨5, 2⟩, ⟨7, 0⟩], [], [⟨2, 1⟩]] :=
  ⟨by decide,
    (processVisibleDrawables_lightList_deterministic
      [[⟨7, 0⟩], [⟨2, 1⟩, ⟨5, 2⟩]] [[⟨5, 2⟩, ⟨7, 0⟩], [], [⟨2, 1⟩]]
      (by decide) (by decide)).2.2.2.1⟩

/-! ## ShadowScenePass::CollectShadowBatches (src/unnamed/part_005, lines 382..434) -/

/-- One shadow-caster candidate as consumed by `CollectShadowBatches`:
its per-zone shadow mask, shadow/draw distances, camera distance, and for
every source batch whether its material's technique supports the shadow
pass (`tech->GetSupportedPass(shadowPassIndex_)` non-null). -/
structure ShadowCasterRec where
  drawableIndex : Nat
  shadowMaskInZone : Nat
  shadowDistance : ℚ
  drawDistance : ℚ
  distance : ℚ
  sourceBatchHasShadowPass : List Bool
deriving DecidableEq, Repr

/-- The shadow-mask test exactly as written in the source:
`if (drawable->GetShadowMaskInZone() & lightMask == 0) continue;`.
C++ gives `==` higher precedence than `&`, so the expression evaluates
`shadowMask & (lightMask == 0 ? 1 : 0)`, not
`(shadowMask & lightMask) == 0`. -/
def shadowMaskSkipAsWritten (shadowMask lightMask : Nat) : Bool :=
  shadowMask &&& (if lightMask = 0 then 1 else 0) ≠ 0

/-- The per-object maximum shadow distance: the shadow distance,
overridden by the draw distance when the draw distance is positive and
either the shadow distance is unset or the draw distance is smaller. -/
def effectiveMaxShadowDistance (c : ShadowCasterRec) : ℚ :=
  if c.drawDistance > 0 ∧ (c.shadowDistance ≤ 0 ∨ c.drawDistance < c.shadowDistance) then
    c.drawDistance
  else c.shadowDistance

/-- The shadow-distance test of `CollectShadowBatches`:
skip the caster when a positive effective maximum shadow distance is
exceeded by the caster's camera distance. -/
def shadowDistanceSkip (c : ShadowCasterRec) : Bool :=
  effectiveMaxShadowDistance c > 0 ∧ c.distance > effectiveMaxShadowDistance c

/-- Whether `CollectShadowBatches` reaches the batch-adding loop for a
caster: neither the (as-written) shadow-mask test nor the shadow-distance
test skipped it. -/
def admitShadowCaster (lightMask : Nat) (c : ShadowCasterRec) : Bool :=
  !shadowMaskSkipAsWritten c.shadowMaskInZone lightMask && !shadowDistanceSkip c

/-- `ShadowScenePass::CollectShadowBatches` for one split: the shadow
batches appended for the admitted casters, one `(drawableIndex,
sourceBatchIndex)` per source batch whose technique supports the shadow
pass. -/
def collectShadowBatches (lightMask : Nat) (shadowCasters : List ShadowCasterRec) :
    List (Nat × Nat) :=
  shadowCasters.foldl
    (fun acc c =>
      if admitShadowCaster lightMask c then
        acc ++ (List.zip (List.range c.sourceBatchHasShadowPass.length)
            c.sourceBatchHasShadowPass).foldl
          (fun bs jp => if jp.2 then bs ++ [(c.drawableIndex, jp.1)] else bs) []
      else acc)
    []

/-- C3 (code bug): a caster whose per-zone shadow mask (2) shares no bit
with the light's light mask (1) is still admitted and produces a shadow
batch, because the source tests
`shadowMask & (lightMask == 0)` instead of `(shadowMask & lightMask) == 0`
(C++ operator precedence); with a nonzero light mask the mask filter never
rejects anything. -/
theorem collectShadowBatches_maskFilterIneffective :
    (2 : Nat) &&& 1 = 0
    ∧ collectShadowBatches 1 [⟨3, 2, 0, 0, 5, [true]⟩] = [(3, 0)] := by
  decide

/-! ## BatchStateCache (src/unnamed/part_007, lines 127..143)

Only the class declaration of `BatchStateCache` is part of the excerpt;
the member definitions are modelled from the spec (§4.5 and the header's
doc comments). -/

/-- `BatchStateLookupKey`: hashes plus geometry/material/pass identity
(pointers modelled as numeric identities). -/
structure BatchStateLookupKey where
  drawableHash : Nat
  pixelLightHash : Nat
  geometryType : Nat
  geometry : Nat
  material : Nat
  pass : Nat
deriving DecidableEq, Repr

/-- `BatchStateCreateKey`: the lookup key plus the actual objects needed
to create a pipeline state. -/
structure BatchStateCreateKey where
  lookup : BatchStateLookupKey
  drawable : Nat
  sourceBatchIndex : Nat
  pixelLight : Nat
  pixelLightIndex : Nat
  vertexLightsHash : Nat
deriving DecidableEq, Repr

/-- `CachedBatchState`: the cached pipeline state (possibly a null/invalid
handle, modelled as `none`) and the invalidation flag (defaults to true). -/
structure CachedBatchState where
  pipelineState : Option Nat
  invalidated : Bool
deriving DecidableEq, Repr

/-- The cache map `ea::unordered_map<BatchStateLookupKey, CachedBatchState>`,
modelled as an association list. -/
def BatchStateCacheMap : Type := List (BatchStateLookupKey × CachedBatchState)

/-- Find the cache entry for a lookup key. -/
def findCachedState (cache : BatchStateCacheMap) (key : BatchStateLookupKey) :
    Option CachedBatchState :=
  match cache.find? (fun e => e.1 == key) with
  | some e => some e.2
  | none => none

/-- Modelled from the spec: `BatchStateCache::Invalidate` — mark every
cached entry invalidated. -/
def invalidateCache (cache : BatchStateCacheMap) : BatchStateCacheMap :=
  cache.map (fun e => (e.1, { e.2 with invalidated := true }))

/-- Modelled from the spec: `BatchStateCache::GetPipelineState` — the
thread-safe, read-only lookup.  Returns the cached state for the key, and
null when the key is absent or its entry is invalidated ("Return existing
pipeline state or nullptr if not found"). -/
def GetPipelineState (cache : BatchStateCacheMap) (key : BatchStateLookupKey) : Option Nat :=
  match findCachedState cache key with
  | some entry => if entry.invalidated then none else entry.pipelineState
  | none => none

/-- Modelled from the spec: `BatchStateCache::GetOrCreatePipelineState` —
the single-threaded resolution step.  On a hit with a valid (non-invalidated)
entry it returns the stored state; otherwise it invokes the creation
callback, stores the result (which may itself be a null/invalid handle)
with the invalidation flag cleared, and returns it.  Returns the resulting
state together with the updated cache. -/
def GetOrCreatePipelineState (cache : BatchStateCacheMap) (key : BatchStateCreateKey)
    (ctx : Nat) (callback : BatchStateCreateKey → Nat → Option Nat) :
    Option Nat × BatchStateCacheMap :=
  match findCachedState cache key.lookup with
  | some entry =>
    if !entry.invalidated then (entry.pipelineState, cache)
    else
      let created := callback key ctx
      (created, (key.lookup, ⟨created, false⟩)
        :: cache.filter (fun e => !(e.1 == key.lookup)))
  | none =>
    let created := callback key ctx
    (created, (key.lookup, ⟨created, false⟩)
      :: cache.filter (fun e => !(e.1 == key.lookup)))

/-- C5: every state handle returned by `GetOrCreatePipelineState` is
found again by a subsequent `GetPipelineState` with the same lookup key on
the updated cache (no intervening invalidation): the round trip returns
the very same handle. -/
theorem getOrCreate_getPipelineState_roundTrip (cache : BatchStateCacheMap)
    (key : BatchStateCreateKey) (ctx : Nat)
    (callback : BatchStateCreateKey → Nat → Option Nat) :
    GetPipelineState (GetOrCreatePipelineState cache key ctx callback).2 key.lookup
      = (GetOrCreatePipelineState cache key ctx callback).1 := by
  have hcons : ∀ (st : CachedBatchState) (rest : BatchStateCacheMap),
      GetPipelineState ((key.lookup, st) :: rest) key.lookup
        = if st.invalidated then none else st.pipelineState := by
    intro st rest
    simp [GetPipelineState, findCachedState, List.find?]
  cases hfind : findCachedState cache key.lookup with
  | some entry =>
    cases hinv : entry.invalidated with
    | false =>
      simp [GetOrCreatePipelineState, hfind, hinv, GetPipelineState]
    | true =>
      simp [GetOrCreatePipelineState, hfind, hinv, hcons]
  | none =>
    simp [GetOrCreatePipelineState, hfind, hcons]

/-! ## SceneLightShadowSplit::SetupDirLightShadowCamera
(src/unnamed/part_007, lines 379..441) — the frustum-volume computation
with optional focusing.  The `Polyhedron` type and its `Clip` operation
live in the external Math library (not part of the excerpt); faces are
modelled as vertex lists and `Clip` is passed in as a function. -/

/-- A point (rational coordinates). -/
abbrev Vec3Q := ℚ × ℚ × ℚ

/-- An axis-aligned bounding box as min/max corners. -/
abbrev BoxQ := Vec3Q × Vec3Q

/-- A polyhedron as a list of faces, each a vertex list
(the external Math library's `Polyhedron::faces_`). -/
abbrev PolyhedronQ := List (List Vec3Q)

/-- `Polyhedron::Empty()`: no faces. -/
def polyEmpty (p : PolyhedronQ) : Bool := p.isEmpty

/-- A frustum as its eight corner vertices. -/
structure FrustumQ where
  vertices : List Vec3Q
deriving DecidableEq, Repr

/-- Modelled from the spec: `Polyhedron::Define(const Frustum&)` (external
Math library) — the six quad faces of the frustum volume, built from the
eight frustum corners. -/
def polyDefineFrustum (f : FrustumQ) : PolyhedronQ :=
  let v := fun i => f.vertices.getD i ((0 : ℚ), (0 : ℚ), (0 : ℚ))
  [ [v 0, v 1, v 2, v 3]
  , [v 0, v 4, v 5, v 1]
  , [v 1, v 5, v 6, v 2]
  , [v 2, v 6, v 7, v 3]
  , [v 3, v 7, v 4, v 0]
  , [v 4, v 7, v 6, v 5] ]

/-- Modelled from the spec: `FloatRange::Interset` — whether two inclusive
float ranges overlap. -/
def rangesOverlap (a b : ℚ × ℚ) : Bool :=
  a.1 ≤ b.2 ∧ b.1 ≤ a.2

/-- `BoundingBox::Merge` starting from a default-constructed (undefined)
box: `none` plays the role of `!Defined()`. -/
def boxMerge (acc : Option BoxQ) (b : BoxQ) : Option BoxQ :=
  match acc with
  | none => some b
  | some ((mnx, mny, mnz), (mxx, mxy, mxz)) =>
    some ((min mnx b.1.1, min mny b.1.2.1, min mnz b.1.2.2),
      (max mxx b.2.1, max mxy b.2.2.1, max mxz b.2.2.2))

/-- One lit geometry as consumed by the focusing step: its cached
view-space Z range and its world bounding box. -/
structure LitGeometryRec where
  zRange : ℚ × ℚ
  box : BoxQ
deriving DecidableEq, Repr

/-- The `litGeometriesBox` computation of `SetupDirLightShadowCamera`:
merge the world bounding boxes of the lit geometries whose Z range
intersects the split Z range.  `none` means the box stayed undefined. -/
def litGeometriesBox (geoms : List LitGeometryRec) (splitZRange : ℚ × ℚ) : Option BoxQ :=
  geoms.foldl
    (fun acc g => if rangesOverlap g.zRange splitZRange then boxMerge acc g.box else acc)
    none

/-- The frustum-volume computation of `SetupDirLightShadowCamera`:
define the volume from the split frustum; with focusing enabled and a
defined lit-geometry box, clip the volume by the box, and if the clipped
volume became empty restore it from the split frustum ("If volume became
empty, restore it to avoid zero size").  `clip` is the external
`Polyhedron::Clip(BoundingBox)`. -/
def setupDirLightFrustumVolume (clip : PolyhedronQ → BoxQ → PolyhedronQ)
    (focus : Bool) (splitFrustum : FrustumQ) (geoms : List LitGeometryRec)
    (splitZRange : ℚ × ℚ) : PolyhedronQ :=
  let frustumVolume := polyDefineFrustum splitFrustum
  if focus then
    match litGeometriesBox geoms splitZRange with
    | some box =>
      let clipped := clip frustumVolume box
      if polyEmpty clipped then polyDefineFrustum splitFrustum else clipped
    | none => frustumVolume
  else frustumVolume

/-- C7: with focusing enabled, whenever clipping the split-frustum volume
by the merged lit-geometry box empties the polyhedron, the volume is
restored to the full unclipped split frustum; and in every case the
resulting volume is nonempty, so the shadow bounding box is never derived
from an empty volume. -/
theorem setupDirLightFrustumVolume_fallback
    (clip : PolyhedronQ → BoxQ → PolyhedronQ) (splitFrustum : FrustumQ)
    (geoms : List LitGeometryRec) (splitZRange : ℚ × ℚ) (box : BoxQ)
    (hbox : litGeometriesBox geoms splitZRange = some box)
    (hempty : polyEmpty (clip (polyDefineFrustum splitFrustum) box) = true) :
    setupDirLightFrustumVolume clip true splitFrustum geoms splitZRange
      = polyDefineFrustum splitFrustum
    ∧ ∀ (c : PolyhedronQ → BoxQ → PolyhedronQ) (f : Bool),
        polyEmpty (setupDirLightFrustumVolume c f splitFrustum geoms splitZRange) = false := by
  constructor
  · simp [setupDirLightFrustumVolume, hbox, hempty]
  · intro c f
    unfold setupDirLightFrustumVolume
    cases f with
    | false => simp [polyEmpty, polyDefineFrustum]
    | true =>
      cases hb : litGeometriesBox geoms splitZRange with
      | none => simp [polyEmpty, polyDefineFrustum]
      | some b =>
        simp only
        cases hc : polyEmpty (c (polyDefineFrustum splitFrustum) b) with
        | true => simp [hc, polyEmpty, polyDefineFrustum]
        | false =>
          simp [hc, polyEmpty] at hc ⊢
          exact hc

/-- Witness for C7: a clip operation that empties the volume (constantly
empty) on a concrete frustum and one lit geometry overlapping the split
range; the volume falls back to the unclipped frustum. -/
theorem setupDirLightFrustumVolume_fallback_witness :
    litGeometriesBox [⟨(0, 1), ((0, 0, 0), (1, 1, 1))⟩] (0, 2)
        = some ((0, 0, 0), (1, 1, 1))
    ∧ polyEmpty ((fun _ _ => ([] : PolyhedronQ))
        (polyDefineFrustum ⟨[]⟩) ((0, 0, 0), (1, 1, 1))) = true
    ∧ setupDirLightFrustumVolume (fun _ _ => ([] : PolyhedronQ)) true ⟨[]⟩
        [⟨(0, 1), ((0, 0, 0), (1, 1, 1))⟩] (0, 2)
      = polyDefineFrustum ⟨[]⟩ :=
  ⟨by decide, rfl,
    (setupDirLightFrustumVolume_fallback (fun _ _ => ([] : PolyhedronQ)) ⟨[]⟩
      [⟨(0, 1), ((0, 0, 0), (1, 1, 1))⟩] (0, 2) ((0, 0, 0), (1, 1, 1))
      (by decide) rfl).1⟩

/-! ## SceneLightShadowSplit::QuantizeDirLightShadowCamera
(src/unnamed/part_007, lines 442..489) — the view-size computation.

`sqrtf`/`ceilf` are modelled by exact `Real.sqrt` and `Int.ceil` over ℝ. -/

/-- `FocusParameters` of a light's shadow focus settings. -/
structure FocusParameters where
  focus : Bool
  nonUniform : Bool
  quantize : ℝ
  minView : ℝ

/-- The scalar size computation of `QuantizeDirLightShadowCamera`:
`v ↦ max(ceil(sqrt(v / quantize))² · quantize, minView)` — round the view
size up to the next quantization step and clamp it to the minimum view
size. -/
noncomputable def quantizeShadowViewSize (quantize minView v : ℝ) : ℝ :=
  max (((⌈Real.sqrt (v / quantize)⌉ : ℤ) : ℝ) ^ 2 * quantize) minView

/-- The view-size part of `QuantizeDirLightShadowCamera`: with
`nonUniform_` the scalar computation is applied to each axis; otherwise
with `focus_` it is applied to the larger axis and the result is used for
both; otherwise the size is left unchanged. -/
noncomputable def quantizeDirLightViewSize (p : FocusParameters) (viewSize : ℝ × ℝ) : ℝ × ℝ :=
  if p.nonUniform then
    (quantizeShadowViewSize p.quantize p.minView viewSize.1,
      quantizeShadowViewSize p.quantize p.minView viewSize.2)
  else if p.focus then
    let s := quantizeShadowViewSize p.quantize p.minView (max viewSize.1 viewSize.2)
    (s, s)
  else viewSize

theorem quantizeShadowViewSize_one_two_one : quantizeShadowViewSize 1 2 1 = 2 := by
  unfold quantizeShadowViewSize
  rw [div_one, Real.sqrt_one, Int.ceil_one]
  norm_num

theorem ceil_sqrt_two : ⌈Real.sqrt 2⌉ = 2 := by
  rw [Int.ceil_eq_iff]
  constructor
  · push_cast
    norm_num
    exact (Real.lt_sqrt (by norm_num)).mpr (by norm_num)
  · push_cast
    exact Real.sqrt_le_iff.mpr ⟨by norm_num, by norm_num⟩

theorem quantizeShadowViewSize_one_two_two : quantizeShadowViewSize 1 2 2 = 4 := by
  unfold quantizeShadowViewSize
  rw [div_one, ceil_sqrt_two]
  norm_num

/-- Counterexample to C6 as stated: with focus parameters
`nonUniform = true`, `quantize = 1`, `minView = 2`, the size computation
maps view size `(1, 1)` to `(2, 2)` (the clamp engages), but re-applying
it to the produced size `(2, 2)` yields `(4, 4)`: re-quantization is not
idempotent once the minimum-view clamp has raised the size. -/
theorem quantizeDirLightViewSize_not_idempotent :
    quantizeDirLightViewSize ⟨true, true, 1, 2⟩
        (quantizeDirLightViewSize ⟨true, true, 1, 2⟩ (1, 1))
      ≠ quantizeDirLightViewSize ⟨true, true, 1, 2⟩ (1, 1) := by
  have h1 : quantizeDirLightViewSize ⟨true, true, 1, 2⟩ (1, 1) = (2, 2) := by
    unfold quantizeDirLightViewSize
    simp [quantizeShadowViewSize_one_two_one]
  have h2 : quantizeDirLightViewSize ⟨true, true, 1, 2⟩ (2, 2) = (4, 4) := by
    unfold quantizeDirLightViewSize
    simp [quantizeShadowViewSize_one_two_two]
  rw [h1, h2]
  intro h
  have := congrArg Prod.fst h
  norm_num at this

/-- C6 (amended): the size computation of `QuantizeDirLightShadowCamera`
is idempotent on every view size whose quantized value is not raised by
the minimum-view clamp: if `minView ≤ ceil(sqrt(v / quantize))² · quantize`
(and the quantization step is positive), applying the computation to the
size it produced for `v` yields that same size with no further change. -/
theorem quantizeShadowViewSize_idempotent_of_unclamped (quantize minView v : ℝ)
    (hq : 0 < quantize)
    (hclamp : minView ≤ ((⌈Real.sqrt (v / quantize)⌉ : ℤ) : ℝ) ^ 2 * quantize) :
    quantizeShadowViewSize quantize minView (quantizeShadowViewSize quantize minView v)
      = quantizeShadowViewSize quantize minView v := by
  have hk0 : (0 : ℤ) ≤ ⌈Real.sqrt (v / quantize)⌉ :=
    Int.ceil_nonneg (Real.sqrt_nonneg _)
  have h1 : quantizeShadowViewSize quantize minView v
      = ((⌈Real.sqrt (v / quantize)⌉ : ℤ) : ℝ) ^ 2 * quantize :=
    max_eq_left hclamp
  have hdiv : ((⌈Real.sqrt (v / quantize)⌉ : ℤ) : ℝ) ^ 2 * quantize / quantize
      = ((⌈Real.sqrt (v / quantize)⌉ : ℤ) : ℝ) ^ 2 := by
    field_simp
  have hceil : ⌈Real.sqrt (((⌈Real.sqrt (v / quantize)⌉ : ℤ) : ℝ) ^ 2 * quantize / quantize)⌉
      = ⌈Real.sqrt (v / quantize)⌉ := by
    rw [hdiv, Real.sqrt_sq (by exact_mod_cast hk0), Int.ceil_intCast]
  rw [h1]
  unfold quantizeShadowViewSize
  rw [hceil]
  exact max_eq_left hclamp

theorem ceil_sqrt_four : ⌈Real.sqrt ((4 : ℝ) / 1)⌉ = 2 := by
  rw [div_one, show (4 : ℝ) = 2 ^ 2 by norm_num, Real.sqrt_sq (by norm_num)]
  rw [show (2 : ℝ) = ((2 : ℤ) : ℝ) by norm_num, Int.ceil_intCast]

/-- Witness for the amended C6: `quantize = 1`, `minView = 1`,
view size `4`: the clamp does not engage and re-quantization is stable. -/
theorem quantizeShadowViewSize_idempotent_of_unclamped_witness :
    (0 : ℝ) < 1
    ∧ (1 : ℝ) ≤ ((⌈Real.sqrt ((4 : ℝ) / 1)⌉ : ℤ) : ℝ) ^ 2 * 1
    ∧ quantizeShadowViewSize 1 1 (quantizeShadowViewSize 1 1 4)
        = quantizeShadowViewSize 1 1 4 := by
  have hle : (1 : ℝ) ≤ ((⌈Real.sqrt ((4 : ℝ) / 1)⌉ : ℤ) : ℝ) ^ 2 * 1 := by
    rw [ceil_sqrt_four]
    norm_num
  exact ⟨by norm_num, hle,
    quantizeShadowViewSize_idempotent_of_unclamped 1 1 4 (by norm_num) hle⟩

end Urho3D
